import Mathlib

/-!
Shallow embedding of `src/src/odometry.cpp` (namespace `diff_drive_controller`,
class `Odometry`) over the real numbers, together with theorems settling the
specification claims about it.

Doubles are modelled as `ℝ`, `ros::Time` as a real-valued time point whose
subtraction (`toSec`) is real subtraction.  Division is the total real
division (division by zero yields 0 in the model; the source leaves it
unguarded, producing Inf/NaN in floating point).
-/

noncomputable section

namespace DiffDrive

open Real

/-- Modelled from the spec: the `boost::accumulators` rolling-window
accumulator (`RollingMeanAcc` in the source) is an external library whose
code is not in the repository.  Per the spec it is a circular buffer of
capacity N holding the most recent inserted samples; `samples` holds them
most-recent-first, and the reported rolling mean is the arithmetic mean of
the buffered samples. -/
structure RollingAcc where
  capacity : Nat
  samples : List ℝ

/-- A freshly (re)constructed accumulator: `RollingMeanAcc(RollingWindow::window_size = n)` — empty buffer of capacity `n`. -/
def RollingAcc.make (n : Nat) : RollingAcc :=
  { capacity := n, samples := [] }

/-- Inserting a sample: `accum_(x)` appends, evicting the oldest beyond capacity. -/
def RollingAcc.insert (a : RollingAcc) (x : ℝ) : RollingAcc :=
  { capacity := a.capacity, samples := (x :: a.samples).take a.capacity }

/-- The reported mean: `bacc::rolling_mean(accum_)`, arithmetic mean of the buffered samples. -/
def RollingAcc.mean (a : RollingAcc) : ℝ :=
  a.samples.sum / a.samples.length

/-- Insert a whole list of samples in order (first element inserted first). -/
def RollingAcc.insertAll (a : RollingAcc) (xs : List ℝ) : RollingAcc :=
  xs.foldl RollingAcc.insert a

/-- The full state of `diff_drive_controller::Odometry` (odometry.cpp). -/
structure Odometry where
  timestamp : ℝ
  x : ℝ
  y : ℝ
  heading : ℝ
  linear_vel : ℝ
  angular_vel : ℝ
  wheel_separation : ℝ
  left_wheel_radius : ℝ
  right_wheel_radius : ℝ
  left_wheel_old_pos : ℝ
  right_wheel_old_pos : ℝ
  velocity_rolling_window_size : Nat
  linear_accum : RollingAcc
  angular_accum : RollingAcc

/-- The constructor `Odometry::Odometry(size_t velocity_rolling_window_size)`
(odometry.cpp lines 48-65): every scalar field is zero-initialised and both
accumulators are built empty with the given window size. -/
def Odometry.construct (n : Nat) : Odometry :=
  { timestamp := 0
    x := 0
    y := 0
    heading := 0
    linear_vel := 0
    angular_vel := 0
    wheel_separation := 0
    left_wheel_radius := 0
    right_wheel_radius := 0
    left_wheel_old_pos := 0
    right_wheel_old_pos := 0
    velocity_rolling_window_size := n
    linear_accum := RollingAcc.make n
    angular_accum := RollingAcc.make n }

/-- Embeds `linear = (right_wheel_dist_traveled + left_wheel_dist_traveled) * 0.5`
(odometry.cpp lines 89 and 132). -/
def linearDiff (ldist rdist : ℝ) : ℝ :=
  (rdist + ldist) * 0.5

/-- Embeds `angular = (right_wheel_dist_traveled - left_wheel_dist_traveled) / wheel_separation_`
(odometry.cpp lines 90 and 133). -/
def angularDiff (ldist rdist sep : ℝ) : ℝ :=
  (rdist - ldist) / sep

/-- Embeds `Odometry::integrateRungeKutta2` (odometry.cpp lines 167-175). -/
def Odometry.integrateRungeKutta2 (o : Odometry) (linear angular : ℝ) : Odometry :=
  let direction := o.heading + angular * 0.5
  { o with
    x := o.x + linear * Real.cos direction
    y := o.y + linear * Real.sin direction
    heading := o.heading + angular }

/-- Embeds `Odometry::integrateExact` (odometry.cpp lines 182-195): falls back to
RungeKutta2 when `fabs(angular) < 1e-4`, otherwise closed-form arc update
(heading is updated first and then read, exactly as in the source). -/
def Odometry.integrateExact (o : Odometry) (linear angular : ℝ) : Odometry :=
  if |angular| < 1e-4 then
    o.integrateRungeKutta2 linear angular
  else
    let heading_old := o.heading
    let radius := linear / angular
    let heading_new := o.heading + angular
    { o with
      heading := heading_new
      x := o.x + radius * (Real.sin heading_new - Real.sin heading_old)
      y := o.y + -radius * (Real.cos heading_new - Real.cos heading_old) }

/-- Embeds `Odometry::resetAccumulators` (odometry.cpp lines 197-201). -/
def Odometry.resetAccumulators (o : Odometry) : Odometry :=
  { o with
    linear_accum := RollingAcc.make o.velocity_rolling_window_size
    angular_accum := RollingAcc.make o.velocity_rolling_window_size }

/-- Embeds `Odometry::init` (odometry.cpp lines 67-72). -/
def Odometry.init (o : Odometry) (time : ℝ) : Odometry :=
  { o.resetAccumulators with timestamp := time }

/-- Embeds `Odometry::updateWithVelEst` (odometry.cpp lines 74-110), the
encoder-positions-only update (spec mode A, `updateFromEncoderPositions`).
Returns the C++ boolean result paired with the post-state. -/
def Odometry.updateWithVelEst (o : Odometry) (left_pos right_pos time : ℝ) :
    Bool × Odometry :=
  let left_wheel_cur_pos := left_pos * o.left_wheel_radius
  let right_wheel_cur_pos := right_pos * o.right_wheel_radius
  let left_wheel_dist_traveled := left_wheel_cur_pos - o.left_wheel_old_pos
  let right_wheel_dist_traveled := right_wheel_cur_pos - o.right_wheel_old_pos
  let o1 := { o with
    left_wheel_old_pos := left_wheel_cur_pos
    right_wheel_old_pos := right_wheel_cur_pos }
  let linear := linearDiff left_wheel_dist_traveled right_wheel_dist_traveled
  let angular := angularDiff left_wheel_dist_traveled right_wheel_dist_traveled
    o.wheel_separation
  let o2 := o1.integrateExact linear angular
  let dt := time - o.timestamp
  if dt < 1e-4 then
    (false, o2)
  else
    let la := o2.linear_accum.insert (linear / dt)
    let aa := o2.angular_accum.insert (angular / dt)
    (true, { o2 with
      timestamp := time
      linear_accum := la
      angular_accum := aa
      linear_vel := la.mean
      angular_vel := aa.mean })

/-- Embeds `Odometry::update` (odometry.cpp lines 112-139), the
positions-and-velocities update (spec mode B,
`updateFromEncoderPositionsAndVelocities`).  Note that the source never
touches `timestamp_` here and always returns `true`. -/
def Odometry.update (o : Odometry)
    (left_pos right_pos left_vel right_vel time : ℝ) : Bool × Odometry :=
  let r := (o.left_wheel_radius + o.right_wheel_radius) * 0.5
  let o1 := { o with
    linear_vel := (left_vel + right_vel) * r / 2
    angular_vel := r * (right_vel - left_vel) / o.wheel_separation }
  let left_wheel_cur_pos := left_pos * o.left_wheel_radius
  let right_wheel_cur_pos := right_pos * o.right_wheel_radius
  let left_wheel_dist_traveled := left_wheel_cur_pos - o.left_wheel_old_pos
  let right_wheel_dist_traveled := right_wheel_cur_pos - o.right_wheel_old_pos
  let o2 := { o1 with
    left_wheel_old_pos := left_wheel_cur_pos
    right_wheel_old_pos := right_wheel_cur_pos }
  let linear_diff := linearDiff left_wheel_dist_traveled right_wheel_dist_traveled
  let angular_diff := angularDiff left_wheel_dist_traveled right_wheel_dist_traveled
    o.wheel_separation
  (true, o2.integrateExact linear_diff angular_diff)

/-- Embeds `Odometry::updateOpenLoop` (odometry.cpp lines 141-151) (spec mode C). -/
def Odometry.updateOpenLoop (o : Odometry) (linear angular time : ℝ) : Odometry :=
  let o1 := { o with linear_vel := linear, angular_vel := angular }
  let dt := time - o.timestamp
  let o2 := { o1 with timestamp := time }
  o2.integrateExact (linear * dt) (angular * dt)

/-- Embeds `Odometry::setWheelParams` (odometry.cpp lines 153-158). -/
def Odometry.setWheelParams (o : Odometry)
    (wheel_separation left_wheel_radius right_wheel_radius : ℝ) : Odometry :=
  { o with
    wheel_separation := wheel_separation
    left_wheel_radius := left_wheel_radius
    right_wheel_radius := right_wheel_radius }

/-- Embeds `Odometry::setVelocityRollingWindowSize` (odometry.cpp lines 160-165). -/
def Odometry.setVelocityRollingWindowSize (o : Odometry) (n : Nat) : Odometry :=
  Odometry.resetAccumulators { o with velocity_rolling_window_size := n }

/-- Fold a list of (linear, angular) increments through the default (Exact)
integration strategy. -/
def Odometry.integrateExactSeq (o : Odometry) (incs : List (ℝ × ℝ)) : Odometry :=
  incs.foldl (fun s p => s.integrateExact p.1 p.2) o

/-- Embeds `left_wheel_cur_pos - left_wheel_old_pos_` with
`left_wheel_cur_pos = left_pos * left_wheel_radius_` (odometry.cpp lines 77, 81). -/
def Odometry.leftDistTraveled (o : Odometry) (left_pos : ℝ) : ℝ :=
  left_pos * o.left_wheel_radius - o.left_wheel_old_pos

/-- Embeds `right_wheel_cur_pos - right_wheel_old_pos_` with
`right_wheel_cur_pos = right_pos * right_wheel_radius_` (odometry.cpp lines 78, 82). -/
def Odometry.rightDistTraveled (o : Odometry) (right_pos : ℝ) : ℝ :=
  right_pos * o.right_wheel_radius - o.right_wheel_old_pos

/- ------------------------------------------------------------------ -/
/- Helper lemmas (shared; not claim theorems).                         -/
/- ------------------------------------------------------------------ -/

@[simp]
theorem integrateExact_timestamp (o : Odometry) (l a : ℝ) :
    (o.integrateExact l a).timestamp = o.timestamp := by
  unfold Odometry.integrateExact Odometry.integrateRungeKutta2
  split <;> rfl

@[simp]
theorem integrateExact_linear_vel (o : Odometry) (l a : ℝ) :
    (o.integrateExact l a).linear_vel = o.linear_vel := by
  unfold Odometry.integrateExact Odometry.integrateRungeKutta2
  split <;> rfl

@[simp]
theorem integrateExact_angular_vel (o : Odometry) (l a : ℝ) :
    (o.integrateExact l a).angular_vel = o.angular_vel := by
  unfold Odometry.integrateExact Odometry.integrateRungeKutta2
  split <;> rfl

@[simp]
theorem integrateExact_wheel_separation (o : Odometry) (l a : ℝ) :
    (o.integrateExact l a).wheel_separation = o.wheel_separation := by
  unfold Odometry.integrateExact Odometry.integrateRungeKutta2
  split <;> rfl

@[simp]
theorem integrateExact_left_wheel_radius (o : Odometry) (l a : ℝ) :
    (o.integrateExact l a).left_wheel_radius = o.left_wheel_radius := by
  unfold Odometry.integrateExact Odometry.integrateRungeKutta2
  split <;> rfl

@[simp]
theorem integrateExact_right_wheel_radius (o : Odometry) (l a : ℝ) :
    (o.integrateExact l a).right_wheel_radius = o.right_wheel_radius := by
  unfold Odometry.integrateExact Odometry.integrateRungeKutta2
  split <;> rfl

@[simp]
theorem integrateExact_left_wheel_old_pos (o : Odometry) (l a : ℝ) :
    (o.integrateExact l a).left_wheel_old_pos = o.left_wheel_old_pos := by
  unfold Odometry.integrateExact Odometry.integrateRungeKutta2
  split <;> rfl

@[simp]
theorem integrateExact_right_wheel_old_pos (o : Odometry) (l a : ℝ) :
    (o.integrateExact l a).right_wheel_old_pos = o.right_wheel_old_pos := by
  unfold Odometry.integrateExact Odometry.integrateRungeKutta2
  split <;> rfl

@[simp]
theorem integrateExact_linear_accum (o : Odometry) (l a : ℝ) :
    (o.integrateExact l a).linear_accum = o.linear_accum := by
  unfold Odometry.integrateExact Odometry.integrateRungeKutta2
  split <;> rfl

@[simp]
theorem integrateExact_angular_accum (o : Odometry) (l a : ℝ) :
    (o.integrateExact l a).angular_accum = o.angular_accum := by
  unfold Odometry.integrateExact Odometry.integrateRungeKutta2
  split <;> rfl

@[simp]
theorem integrateExact_window_size (o : Odometry) (l a : ℝ) :
    (o.integrateExact l a).velocity_rolling_window_size =
      o.velocity_rolling_window_size := by
  unfold Odometry.integrateExact Odometry.integrateRungeKutta2
  split <;> rfl

@[simp]
theorem integrateRungeKutta2_heading (o : Odometry) (l a : ℝ) :
    (o.integrateRungeKutta2 l a).heading = o.heading + a := rfl

@[simp]
theorem integrateExact_heading (o : Odometry) (l a : ℝ) :
    (o.integrateExact l a).heading = o.heading + a := by
  unfold Odometry.integrateExact Odometry.integrateRungeKutta2
  split <;> rfl

theorem integrateExact_pose_congr (o o₂ : Odometry) (l a : ℝ)
    (hx : o.x = o₂.x) (hy : o.y = o₂.y) (hh : o.heading = o₂.heading) :
    (o.integrateExact l a).x = (o₂.integrateExact l a).x ∧
    (o.integrateExact l a).y = (o₂.integrateExact l a).y ∧
    (o.integrateExact l a).heading = (o₂.integrateExact l a).heading := by
  by_cases hc : |a| < 1e-4 <;>
    simp [Odometry.integrateExact, Odometry.integrateRungeKutta2, hc, hx, hy, hh]

theorem integrateExactSeq_heading (incs : List (ℝ × ℝ)) (o : Odometry) :
    (o.integrateExactSeq incs).heading = o.heading + (incs.map Prod.snd).sum := by
  induction incs generalizing o with
  | nil => simp [Odometry.integrateExactSeq]
  | cons p rest ih =>
      have h := ih (o.integrateExact p.1 p.2)
      simp only [Odometry.integrateExactSeq, List.foldl_cons] at h ⊢
      rw [h, integrateExact_heading, List.map_cons, List.sum_cons, add_assoc]

theorem updateWithVelEst_pose (o : Odometry) (lp rp t : ℝ) :
    (o.updateWithVelEst lp rp t).2.x =
      (o.integrateExact (linearDiff (o.leftDistTraveled lp) (o.rightDistTraveled rp))
        (angularDiff (o.leftDistTraveled lp) (o.rightDistTraveled rp)
          o.wheel_separation)).x ∧
    (o.updateWithVelEst lp rp t).2.y =
      (o.integrateExact (linearDiff (o.leftDistTraveled lp) (o.rightDistTraveled rp))
        (angularDiff (o.leftDistTraveled lp) (o.rightDistTraveled rp)
          o.wheel_separation)).y ∧
    (o.updateWithVelEst lp rp t).2.heading =
      (o.integrateExact (linearDiff (o.leftDistTraveled lp) (o.rightDistTraveled rp))
        (angularDiff (o.leftDistTraveled lp) (o.rightDistTraveled rp)
          o.wheel_separation)).heading := by
  have h := integrateExact_pose_congr
    { o with
      left_wheel_old_pos := lp * o.left_wheel_radius
      right_wheel_old_pos := rp * o.right_wheel_radius } o
    (linearDiff (o.leftDistTraveled lp) (o.rightDistTraveled rp))
    (angularDiff (o.leftDistTraveled lp) (o.rightDistTraveled rp) o.wheel_separation)
    rfl rfl rfl
  simp only [Odometry.updateWithVelEst, Odometry.leftDistTraveled,
    Odometry.rightDistTraveled] at h ⊢
  split
  · simpa using h
  · simpa using h

theorem update_pose (o : Odometry) (lp rp lv rv t : ℝ) :
    (o.update lp rp lv rv t).2.x =
      (o.integrateExact (linearDiff (o.leftDistTraveled lp) (o.rightDistTraveled rp))
        (angularDiff (o.leftDistTraveled lp) (o.rightDistTraveled rp)
          o.wheel_separation)).x ∧
    (o.update lp rp lv rv t).2.y =
      (o.integrateExact (linearDiff (o.leftDistTraveled lp) (o.rightDistTraveled rp))
        (angularDiff (o.leftDistTraveled lp) (o.rightDistTraveled rp)
          o.wheel_separation)).y ∧
    (o.update lp rp lv rv t).2.heading =
      (o.integrateExact (linearDiff (o.leftDistTraveled lp) (o.rightDistTraveled rp))
        (angularDiff (o.leftDistTraveled lp) (o.rightDistTraveled rp)
          o.wheel_separation)).heading := by
  have h := integrateExact_pose_congr
    { o with
      linear_vel := (lv + rv) * ((o.left_wheel_radius + o.right_wheel_radius) * 0.5) / 2
      angular_vel := ((o.left_wheel_radius + o.right_wheel_radius) * 0.5) *
        (rv - lv) / o.wheel_separation
      left_wheel_old_pos := lp * o.left_wheel_radius
      right_wheel_old_pos := rp * o.right_wheel_radius } o
    (linearDiff (o.leftDistTraveled lp) (o.rightDistTraveled rp))
    (angularDiff (o.leftDistTraveled lp) (o.rightDistTraveled rp) o.wheel_separation)
    rfl rfl rfl
  simp only [Odometry.update, Odometry.leftDistTraveled,
    Odometry.rightDistTraveled] at h ⊢
  simpa using h

theorem updateWithVelEst_left_old (o : Odometry) (lp rp t : ℝ) :
    (o.updateWithVelEst lp rp t).2.left_wheel_old_pos = lp * o.left_wheel_radius := by
  simp only [Odometry.updateWithVelEst]
  split <;> simp

theorem updateWithVelEst_right_old (o : Odometry) (lp rp t : ℝ) :
    (o.updateWithVelEst lp rp t).2.right_wheel_old_pos = rp * o.right_wheel_radius := by
  simp only [Odometry.updateWithVelEst]
  split <;> simp

theorem updateWithVelEst_left_radius (o : Odometry) (lp rp t : ℝ) :
    (o.updateWithVelEst lp rp t).2.left_wheel_radius = o.left_wheel_radius := by
  simp only [Odometry.updateWithVelEst]
  split <;> simp

theorem updateWithVelEst_right_radius (o : Odometry) (lp rp t : ℝ) :
    (o.updateWithVelEst lp rp t).2.right_wheel_radius = o.right_wheel_radius := by
  simp only [Odometry.updateWithVelEst]
  split <;> simp

theorem updateWithVelEst_separation (o : Odometry) (lp rp t : ℝ) :
    (o.updateWithVelEst lp rp t).2.wheel_separation = o.wheel_separation := by
  simp only [Odometry.updateWithVelEst]
  split <;> simp

theorem take_append_take (l m : List ℝ) (n : Nat) :
    (l ++ m.take n).take n = (l ++ m).take n := by
  rw [List.take_append_eq_append_take, List.take_append_eq_append_take]
  rw [List.take_take, Nat.min_eq_left (Nat.sub_le n l.length)]

theorem insertAll_samples (xs : List ℝ) (a : RollingAcc)
    (h : a.samples.length ≤ a.capacity) :
    (a.insertAll xs).samples = (xs.reverse ++ a.samples).take a.capacity ∧
    (a.insertAll xs).capacity = a.capacity := by
  induction xs generalizing a with
  | nil =>
      simp only [RollingAcc.insertAll, List.foldl_nil, List.reverse_nil,
        List.nil_append]
      exact ⟨(List.take_of_length_le h).symm, trivial⟩
  | cons x rest ih =>
      have hlen : ((RollingAcc.insert a x).samples).length ≤
          (RollingAcc.insert a x).capacity := by
        simp [RollingAcc.insert, List.length_take]
      have h2 := ih (a.insert x) hlen
      simp only [RollingAcc.insertAll, List.foldl_cons] at h2 ⊢
      refine ⟨?_, h2.2⟩
      rw [h2.1]
      simp only [RollingAcc.insert]
      rw [take_append_take, List.reverse_cons, List.append_assoc,
        List.singleton_append]

/- ------------------------------------------------------------------ -/
/- Claim theorems.                                                     -/
/- ------------------------------------------------------------------ -/

/-- Claim C2: the default (Exact) pose-integration step, when `|Δangular| < 1e-4`,
performs exactly the Midpoint (RungeKutta2) update — direction
`heading + Δangular/2`, `x += Δlinear*cos(direction)`,
`y += Δlinear*sin(direction)`, `heading += Δangular` — so below the threshold
Exact and Midpoint integration produce identical pose updates; when
`|Δangular| ≥ 1e-4` it performs the closed-form arc update with
`radius = Δlinear/Δangular`. -/
theorem C2_integrateExact_spec (o : Odometry) (lin ang : ℝ) :
    (|ang| < 1e-4 →
      o.integrateExact lin ang = o.integrateRungeKutta2 lin ang ∧
      o.integrateRungeKutta2 lin ang =
        { o with
          x := o.x + lin * Real.cos (o.heading + ang / 2)
          y := o.y + lin * Real.sin (o.heading + ang / 2)
          heading := o.heading + ang }) ∧
    (1e-4 ≤ |ang| →
      o.integrateExact lin ang =
        { o with
          x := o.x + (lin / ang) * (Real.sin (o.heading + ang) - Real.sin o.heading)
          y := o.y + -(lin / ang) * (Real.cos (o.heading + ang) - Real.cos o.heading)
          heading := o.heading + ang }) := by
  constructor
  · intro h
    constructor
    · simp only [Odometry.integrateExact, if_pos h]
    · simp only [Odometry.integrateRungeKutta2]
      have h2 : ang * 0.5 = ang / 2 := by ring
      rw [h2]
  · intro h
    simp only [Odometry.integrateExact, if_neg (not_lt.mpr h)]

/-- Claim C2 witness: concrete instantiation of the short-angle and large-angle
branches of the Exact integration step. -/
theorem C2_integrateExact_witness :
    (|(0 : ℝ)| < 1e-4 ∧
      (Odometry.construct 1).integrateExact 2 0 =
        (Odometry.construct 1).integrateRungeKutta2 2 0) ∧
    ((1e-4 : ℝ) ≤ |(1 : ℝ)| ∧
      (Odometry.construct 1).integrateExact 3 1 =
        { Odometry.construct 1 with
          x := (Odometry.construct 1).x +
            ((3 : ℝ) / 1) * (Real.sin ((Odometry.construct 1).heading + 1) -
              Real.sin (Odometry.construct 1).heading)
          y := (Odometry.construct 1).y +
            -((3 : ℝ) / 1) * (Real.cos ((Odometry.construct 1).heading + 1) -
              Real.cos (Odometry.construct 1).heading)
          heading := (Odometry.construct 1).heading + 1 }) :=
  ⟨⟨by norm_num,
    ((C2_integrateExact_spec (Odometry.construct 1) 2 0).1 (by norm_num)).1⟩,
   ⟨by norm_num,
    (C2_integrateExact_spec (Odometry.construct 1) 3 1).2 (by norm_num)⟩⟩

/-- Claim C7: heading is never wrapped: a single Midpoint step and a single Exact
step (either branch) each change heading by exactly the angular increment,
and over any sequence of increments the final heading equals the initial
heading plus the exact sum of the angular increments. -/
theorem C7_heading_unwrapped (o : Odometry) (lin ang : ℝ) (incs : List (ℝ × ℝ)) :
    (o.integrateRungeKutta2 lin ang).heading = o.heading + ang ∧
    (o.integrateExact lin ang).heading = o.heading + ang ∧
    (o.integrateExactSeq incs).heading = o.heading + (incs.map Prod.snd).sum :=
  ⟨integrateRungeKutta2_heading o lin ang, integrateExact_heading o lin ang,
    integrateExactSeq_heading incs o⟩

/-- Claim C9: setWheelParams overwrites exactly the three wheel-parameter fields;
pose, velocity estimate, encoder memory, timestamp, window size and both
rolling accumulators (capacity and contents) are untouched. -/
theorem C9_setWheelParams_frame (o : Odometry) (sep lr rr : ℝ) :
    (o.setWheelParams sep lr rr).wheel_separation = sep ∧
    (o.setWheelParams sep lr rr).left_wheel_radius = lr ∧
    (o.setWheelParams sep lr rr).right_wheel_radius = rr ∧
    (o.setWheelParams sep lr rr).x = o.x ∧
    (o.setWheelParams sep lr rr).y = o.y ∧
    (o.setWheelParams sep lr rr).heading = o.heading ∧
    (o.setWheelParams sep lr rr).linear_vel = o.linear_vel ∧
    (o.setWheelParams sep lr rr).angular_vel = o.angular_vel ∧
    (o.setWheelParams sep lr rr).left_wheel_old_pos = o.left_wheel_old_pos ∧
    (o.setWheelParams sep lr rr).right_wheel_old_pos = o.right_wheel_old_pos ∧
    (o.setWheelParams sep lr rr).timestamp = o.timestamp ∧
    (o.setWheelParams sep lr rr).velocity_rolling_window_size =
      o.velocity_rolling_window_size ∧
    (o.setWheelParams sep lr rr).linear_accum = o.linear_accum ∧
    (o.setWheelParams sep lr rr).angular_accum = o.angular_accum :=
  ⟨rfl, rfl, rfl, rfl, rfl, rfl, rfl, rfl, rfl, rfl, rfl, rfl, rfl, rfl⟩

/-- Claim C10: a freshly constructed estimator starts with pose (0,0,0), velocity
estimate (0,0), encoder memory (0,0), timestamp 0 and all three wheel
parameters equal to 0; and the encoder-position update always divides the
angular displacement by the stored wheel separation with no guard, so an
encoder update before setWheelParams divides by the zero separation. -/
theorem C10_fresh_state_zero_separation (n : Nat) (o : Odometry) (lp rp t : ℝ) :
    (Odometry.construct n).x = 0 ∧
    (Odometry.construct n).y = 0 ∧
    (Odometry.construct n).heading = 0 ∧
    (Odometry.construct n).linear_vel = 0 ∧
    (Odometry.construct n).angular_vel = 0 ∧
    (Odometry.construct n).left_wheel_old_pos = 0 ∧
    (Odometry.construct n).right_wheel_old_pos = 0 ∧
    (Odometry.construct n).timestamp = 0 ∧
    (Odometry.construct n).wheel_separation = 0 ∧
    (Odometry.construct n).left_wheel_radius = 0 ∧
    (Odometry.construct n).right_wheel_radius = 0 ∧
    (o.updateWithVelEst lp rp t).2.heading =
      o.heading +
        (o.rightDistTraveled rp - o.leftDistTraveled lp) / o.wheel_separation := by
  refine ⟨rfl, rfl, rfl, rfl, rfl, rfl, rfl, rfl, rfl, rfl, rfl, ?_⟩
  have h := (updateWithVelEst_pose o lp rp t).2.2
  rw [h, integrateExact_heading, angularDiff]

/-- Claim C3: updateFromEncoderPositionsAndVelocities always returns true, sets the
velocity estimate directly (unfiltered) to `linear = r*(leftVel+rightVel)/2`
and `angular = r*(rightVel-leftVel)/separation` with the averaged radius
`r = (leftRadius+rightRadius)/2`, advances the encoder memory to the current
wheel distances, and integrates the pose with exactly the same
position-delta increments as updateFromEncoderPositions. -/
theorem C3_update_spec (o : Odometry) (lp rp lv rv t : ℝ) :
    (o.update lp rp lv rv t).1 = true ∧
    (o.update lp rp lv rv t).2.linear_vel =
      ((o.left_wheel_radius + o.right_wheel_radius) / 2) * (lv + rv) / 2 ∧
    (o.update lp rp lv rv t).2.angular_vel =
      ((o.left_wheel_radius + o.right_wheel_radius) / 2) * (rv - lv) /
        o.wheel_separation ∧
    (o.update lp rp lv rv t).2.left_wheel_old_pos = lp * o.left_wheel_radius ∧
    (o.update lp rp lv rv t).2.right_wheel_old_pos = rp * o.right_wheel_radius ∧
    (o.update lp rp lv rv t).2.x = (o.updateWithVelEst lp rp t).2.x ∧
    (o.update lp rp lv rv t).2.y = (o.updateWithVelEst lp rp t).2.y ∧
    (o.update lp rp lv rv t).2.heading = (o.updateWithVelEst lp rp t).2.heading := by
  obtain ⟨ux, uy, uh⟩ := update_pose o lp rp lv rv t
  obtain ⟨wx, wy, wh⟩ := updateWithVelEst_pose o lp rp t
  refine ⟨rfl, ?_, ?_, by simp [Odometry.update], by simp [Odometry.update],
    ux.trans wx.symm, uy.trans wy.symm, uh.trans wh.symm⟩
  · have h : (o.update lp rp lv rv t).2.linear_vel =
        (lv + rv) * ((o.left_wheel_radius + o.right_wheel_radius) * 0.5) / 2 := by
      simp [Odometry.update]
    rw [h]; ring
  · have h : (o.update lp rp lv rv t).2.angular_vel =
        ((o.left_wheel_radius + o.right_wheel_radius) * 0.5) * (rv - lv) /
          o.wheel_separation := by
      simp [Odometry.update]
    rw [h]
    have h05 : (o.left_wheel_radius + o.right_wheel_radius) * 0.5 =
        (o.left_wheel_radius + o.right_wheel_radius) / 2 := by ring
    rw [h05]

/-- Claim C4: updateOpenLoop sets the velocity estimate to exactly the supplied
pair with no filtering, always stores the call time in the timestamp, and
integrates the pose with increment (linear*dt, angular*dt) where dt is the
elapsed time since the previous timestamp; in particular
updateOpenLoop(1, 0, t) with the prior timestamp exactly 2 seconds earlier
adds 2*cos(heading) to x, leaves heading unchanged, leaves y unchanged when
heading is 0 (where x increases by exactly 2), and reports velocity (1, 0). -/
theorem C4_updateOpenLoop_spec (o : Odometry) (lin ang t : ℝ) :
    (o.updateOpenLoop lin ang t).linear_vel = lin ∧
    (o.updateOpenLoop lin ang t).angular_vel = ang ∧
    (o.updateOpenLoop lin ang t).timestamp = t ∧
    (o.updateOpenLoop lin ang t).x =
      (o.integrateExact (lin * (t - o.timestamp)) (ang * (t - o.timestamp))).x ∧
    (o.updateOpenLoop lin ang t).y =
      (o.integrateExact (lin * (t - o.timestamp)) (ang * (t - o.timestamp))).y ∧
    (o.updateOpenLoop lin ang t).heading =
      (o.integrateExact (lin * (t - o.timestamp)) (ang * (t - o.timestamp))).heading ∧
    (o.timestamp = t - 2 →
      (o.updateOpenLoop 1 0 t).x = o.x + 2 * Real.cos o.heading ∧
      (o.updateOpenLoop 1 0 t).heading = o.heading ∧
      (o.updateOpenLoop 1 0 t).linear_vel = 1 ∧
      (o.updateOpenLoop 1 0 t).angular_vel = 0 ∧
      (o.heading = 0 →
        (o.updateOpenLoop 1 0 t).x = o.x + 2 ∧
        (o.updateOpenLoop 1 0 t).y = o.y)) := by
  have hgen : ∀ l a : ℝ,
      (o.updateOpenLoop l a t).x =
        (o.integrateExact (l * (t - o.timestamp)) (a * (t - o.timestamp))).x ∧
      (o.updateOpenLoop l a t).y =
        (o.integrateExact (l * (t - o.timestamp)) (a * (t - o.timestamp))).y ∧
      (o.updateOpenLoop l a t).heading =
        (o.integrateExact (l * (t - o.timestamp)) (a * (t - o.timestamp))).heading := by
    intro l a
    have hp := integrateExact_pose_congr
      { o with linear_vel := l, angular_vel := a, timestamp := t } o
      (l * (t - o.timestamp)) (a * (t - o.timestamp)) rfl rfl rfl
    simpa [Odometry.updateOpenLoop] using hp
  refine ⟨by simp [Odometry.updateOpenLoop], by simp [Odometry.updateOpenLoop],
    by simp [Odometry.updateOpenLoop], (hgen lin ang).1, (hgen lin ang).2.1,
    (hgen lin ang).2.2, ?_⟩
  intro h
  have h2 : t - o.timestamp = 2 := by rw [h]; ring
  obtain ⟨hx, hy, hh⟩ := hgen 1 0
  rw [h2] at hx hy hh
  have habs : |(0 : ℝ) * 2| < 1e-4 := by norm_num
  simp only [Odometry.integrateExact, if_pos habs,
    Odometry.integrateRungeKutta2] at hx hy hh
  norm_num at hx hy hh
  refine ⟨hx, hh, by simp [Odometry.updateOpenLoop],
    by simp [Odometry.updateOpenLoop], ?_⟩
  intro h0
  rw [hx, hy, h0]
  simp

/-- Claim C4 witness: concrete open-loop update from a fresh estimator whose
timestamp is exactly 2 seconds before the call time. -/
theorem C4_updateOpenLoop_witness :
    (Odometry.construct 3).timestamp = (2 : ℝ) - 2 ∧
    ((Odometry.construct 3).updateOpenLoop 1 0 2).x = (Odometry.construct 3).x + 2 ∧
    ((Odometry.construct 3).updateOpenLoop 1 0 2).y = (Odometry.construct 3).y ∧
    ((Odometry.construct 3).updateOpenLoop 1 0 2).linear_vel = 1 ∧
    ((Odometry.construct 3).updateOpenLoop 1 0 2).angular_vel = 0 := by
  have ht : (Odometry.construct 3).timestamp = (2 : ℝ) - 2 := by
    norm_num [Odometry.construct]
  have h0 : (Odometry.construct 3).heading = 0 := rfl
  have h := (C4_updateOpenLoop_spec (Odometry.construct 3) 1 0 2).2.2.2.2.2.2 ht
  exact ⟨ht, (h.2.2.2.2 h0).1, (h.2.2.2.2 h0).2, h.2.2.1, h.2.2.2.1⟩

/-- Claim C5: the velocity estimate produced by
updateFromEncoderPositionsAndVelocities depends only on the supplied wheel
rates and the stored radii/separation (not on position arguments, time or
other state); conversely the pose never depends on the supplied rates, and
with zero position deltas the pose is left exactly unchanged. -/
theorem C5_velocity_pose_noninterference (o o₂ : Odometry)
    (lp rp lp₂ rp₂ lv rv lv₂ rv₂ t t₂ : ℝ) :
    (o.left_wheel_radius = o₂.left_wheel_radius →
     o.right_wheel_radius = o₂.right_wheel_radius →
     o.wheel_separation = o₂.wheel_separation →
      (o.update lp rp lv rv t).2.linear_vel =
        (o₂.update lp₂ rp₂ lv rv t₂).2.linear_vel ∧
      (o.update lp rp lv rv t).2.angular_vel =
        (o₂.update lp₂ rp₂ lv rv t₂).2.angular_vel) ∧
    ((o.update lp rp lv rv t).2.x = (o.update lp rp lv₂ rv₂ t₂).2.x ∧
     (o.update lp rp lv rv t).2.y = (o.update lp rp lv₂ rv₂ t₂).2.y ∧
     (o.update lp rp lv rv t).2.heading = (o.update lp rp lv₂ rv₂ t₂).2.heading) ∧
    (lp * o.left_wheel_radius = o.left_wheel_old_pos →
     rp * o.right_wheel_radius = o.right_wheel_old_pos →
      (o.update lp rp lv rv t).2.x = o.x ∧
      (o.update lp rp lv rv t).2.y = o.y ∧
      (o.update lp rp lv rv t).2.heading = o.heading) := by
  obtain ⟨ux, uy, uh⟩ := update_pose o lp rp lv rv t
  obtain ⟨vx, vy, vh⟩ := update_pose o lp rp lv₂ rv₂ t₂
  refine ⟨?_, ⟨ux.trans vx.symm, uy.trans vy.symm, uh.trans vh.symm⟩, ?_⟩
  · intro h1 h2 h3
    constructor
    · have ha : (o.update lp rp lv rv t).2.linear_vel =
          (lv + rv) * ((o.left_wheel_radius + o.right_wheel_radius) * 0.5) / 2 := by
        simp [Odometry.update]
      have hb : (o₂.update lp₂ rp₂ lv rv t₂).2.linear_vel =
          (lv + rv) * ((o₂.left_wheel_radius + o₂.right_wheel_radius) * 0.5) / 2 := by
        simp [Odometry.update]
      rw [ha, hb, h1, h2]
    · have ha : (o.update lp rp lv rv t).2.angular_vel =
          ((o.left_wheel_radius + o.right_wheel_radius) * 0.5) * (rv - lv) /
            o.wheel_separation := by
        simp [Odometry.update]
      have hb : (o₂.update lp₂ rp₂ lv rv t₂).2.angular_vel =
          ((o₂.left_wheel_radius + o₂.right_wheel_radius) * 0.5) * (rv - lv) /
            o₂.wheel_separation := by
        simp [Odometry.update]
      rw [ha, hb, h1, h2, h3]
  · intro h1 h2
    have hl : o.leftDistTraveled lp = 0 := by
      simp only [Odometry.leftDistTraveled]
      rw [h1, sub_self]
    have hr : o.rightDistTraveled rp = 0 := by
      simp only [Odometry.rightDistTraveled]
      rw [h2, sub_self]
    rw [hl, hr] at ux uy uh
    have hld : linearDiff 0 0 = 0 := by simp [linearDiff]
    have had : angularDiff 0 0 o.wheel_separation = 0 := by simp [angularDiff]
    rw [hld, had] at ux uy uh
    have habs : |(0 : ℝ)| < 1e-4 := by norm_num
    simp only [Odometry.integrateExact, if_pos habs,
      Odometry.integrateRungeKutta2] at ux uy uh
    norm_num at ux uy uh
    exact ⟨ux, uy, uh⟩

/-- Claim C5 witness: a concrete estimator with wheel parameters (1, 1, 1) shows
the velocity estimate agreeing across different positions/times, and a call
with zero position deltas leaving the pose exactly unchanged. -/
theorem C5_velocity_pose_noninterference_witness :
    ((((Odometry.construct 2).setWheelParams 1 1 1).update 0 0 1 2 3).2.linear_vel =
      (((Odometry.construct 2).setWheelParams 1 1 1).update 5 6 1 2 7).2.linear_vel) ∧
    ((((Odometry.construct 2).setWheelParams 1 1 1).update 0 0 1 2 3).2.x =
      ((Odometry.construct 2).setWheelParams 1 1 1).x) := by
  have h := C5_velocity_pose_noninterference
    ((Odometry.construct 2).setWheelParams 1 1 1)
    ((Odometry.construct 2).setWheelParams 1 1 1) 0 0 5 6 1 2 1 2 3 7
  refine ⟨(h.1 rfl rfl rfl).1, (h.2.2 ?_ ?_).1⟩
  · norm_num [Odometry.construct, Odometry.setWheelParams]
  · norm_num [Odometry.construct, Odometry.setWheelParams]

/-- Claim C8 counterexample: the positions-and-velocities update (mode B) modifies
the velocity estimate (here from 0 to 1) yet leaves the timestamp at its
old value 0 instead of storing the call time 5, so the stored timestamp is
not always the time of the most recent pose/velocity-updating call. -/
theorem C8_timestamp_counterexample :
    ((((Odometry.construct 2).setWheelParams 1 1 1).update 1 1 1 1 5).2.linear_vel ≠
      ((Odometry.construct 2).setWheelParams 1 1 1).linear_vel) ∧
    ((((Odometry.construct 2).setWheelParams 1 1 1).update 1 1 1 1 5).2.timestamp ≠
      (5 : ℝ)) := by
  constructor
  · have h : ((((Odometry.construct 2).setWheelParams 1 1 1).update 1 1 1 1 5).2.linear_vel) =
        ((1 : ℝ) + 1) * ((((Odometry.construct 2).setWheelParams 1 1 1).left_wheel_radius +
          ((Odometry.construct 2).setWheelParams 1 1 1).right_wheel_radius) * 0.5) / 2 := by
      simp [Odometry.update]
    rw [h]
    norm_num [Odometry.construct, Odometry.setWheelParams]
  · have h : ((((Odometry.construct 2).setWheelParams 1 1 1).update 1 1 1 1 5).2.timestamp) =
        ((Odometry.construct 2).setWheelParams 1 1 1).timestamp := by
      simp [Odometry.update]
    rw [h]
    norm_num [Odometry.construct, Odometry.setWheelParams]

/-- Claim C8 amended: lastTimestamp is set to the call time by
updateFromEncoderPositions when it refreshes the velocity (dt >= 1e-4) and
by updateOpenLoop unconditionally; the short-interval branch of mode A and
every call of updateFromEncoderPositionsAndVelocities (mode B) leave
lastTimestamp unchanged, even though mode B updates pose and velocity. -/
theorem C8_timestamp_amended (o : Odometry) (lp rp lv rv lin ang t : ℝ) :
    (¬ t - o.timestamp < 1e-4 → (o.updateWithVelEst lp rp t).2.timestamp = t) ∧
    (t - o.timestamp < 1e-4 →
      (o.updateWithVelEst lp rp t).2.timestamp = o.timestamp) ∧
    (o.updateOpenLoop lin ang t).timestamp = t ∧
    (o.update lp rp lv rv t).2.timestamp = o.timestamp := by
  refine ⟨?_, ?_, by simp [Odometry.updateOpenLoop], by simp [Odometry.update]⟩
  · intro h
    simp only [Odometry.updateWithVelEst]
    rw [if_neg h]
  · intro h
    simp only [Odometry.updateWithVelEst]
    rw [if_pos h]
    simp

/-- Claim C8 amended witness: both timestamp branches of mode A exercised on a
fresh estimator. -/
theorem C8_timestamp_amended_witness :
    (¬ (5 : ℝ) - (Odometry.construct 2).timestamp < 1e-4 ∧
      ((Odometry.construct 2).updateWithVelEst 1 1 5).2.timestamp = 5) ∧
    ((0 : ℝ) - (Odometry.construct 2).timestamp < 1e-4 ∧
      ((Odometry.construct 2).updateWithVelEst 1 1 0).2.timestamp =
        (Odometry.construct 2).timestamp) := by
  have h1 : ¬ (5 : ℝ) - (Odometry.construct 2).timestamp < 1e-4 := by
    norm_num [Odometry.construct]
  have h2 : (0 : ℝ) - (Odometry.construct 2).timestamp < 1e-4 := by
    norm_num [Odometry.construct]
  exact ⟨⟨h1, (C8_timestamp_amended (Odometry.construct 2) 1 1 0 0 0 0 5).1 h1⟩,
    ⟨h2, (C8_timestamp_amended (Odometry.construct 2) 1 1 0 0 0 0 0).2.1 h2⟩⟩

/-- Claim C6: a rolling-mean filter of capacity N (N ≥ 1) reports, after k ≤ N
insertions since its last reset/resize, the exact arithmetic mean of all k
samples, and after more than N insertions the mean of only the last N;
setVelocityRollingWindowSize discards all buffered samples and changes the
capacity, so a single subsequent insert of v yields mean v. -/
theorem C6_rolling_mean_spec (N : Nat) (xs : List ℝ) (o : Odometry) (n : Nat)
    (v : ℝ) :
    (1 ≤ N → xs.length ≤ N →
      ((RollingAcc.make N).insertAll xs).mean = xs.sum / xs.length) ∧
    (N < xs.length →
      ((RollingAcc.make N).insertAll xs).mean =
        (xs.drop (xs.length - N)).sum / (N : ℝ)) ∧
    (1 ≤ n →
      ((o.setVelocityRollingWindowSize n).linear_accum.insert v).mean = v ∧
      ((o.setVelocityRollingWindowSize n).angular_accum.insert v).mean = v) := by
  have hbase := insertAll_samples xs (RollingAcc.make N)
    (by simp [RollingAcc.make])
  refine ⟨?_, ?_, ?_⟩
  · intro _ hlen
    rw [RollingAcc.mean, hbase.1]
    simp only [RollingAcc.make, List.append_nil]
    rw [List.take_of_length_le (by simpa using hlen)]
    rw [List.sum_reverse, List.length_reverse]
  · intro hlt
    rw [RollingAcc.mean, hbase.1]
    simp only [RollingAcc.make, List.append_nil]
    have hrev : xs.reverse.take N = (xs.rtake N).reverse := by
      rw [List.rtake_eq_reverse_take_reverse, List.reverse_reverse]
    rw [hrev, List.sum_reverse, List.length_reverse]
    simp only [List.rtake]
    have hlen : (xs.drop (xs.length - N)).length = N := by
      rw [List.length_drop]
      omega
    rw [hlen]
  · intro hn
    obtain ⟨m, rfl⟩ : ∃ m, n = m + 1 := ⟨n - 1, by omega⟩
    constructor <;>
      simp [Odometry.setVelocityRollingWindowSize, Odometry.resetAccumulators,
        RollingAcc.insert, RollingAcc.make, RollingAcc.mean]

/-- Claim C6 witness: capacity 2 — inserting [1, 2] reports mean 3/2; inserting
[1, 2, 3] reports the mean 5/2 of the last two samples; after a resize to
capacity 1, a single insert of 7 reports 7. -/
theorem C6_rolling_mean_witness :
    (((RollingAcc.make 2).insertAll [(1 : ℝ), 2]).mean = 3 / 2) ∧
    (((RollingAcc.make 2).insertAll [(1 : ℝ), 2, 3]).mean = 5 / 2) ∧
    ((((Odometry.construct 5).setVelocityRollingWindowSize 1).linear_accum.insert
      7).mean = 7) := by
  have h1 := (C6_rolling_mean_spec 2 [(1 : ℝ), 2] (Odometry.construct 5) 1 7).1
    (by norm_num) (by norm_num)
  have h2 := (C6_rolling_mean_spec 2 [(1 : ℝ), 2, 3] (Odometry.construct 5) 1
    7).2.1 (by norm_num)
  have h3 := ((C6_rolling_mean_spec 2 [(1 : ℝ), 2, 3] (Odometry.construct 5) 1
    7).2.2 (by norm_num)).1
  norm_num at h1 h2
  exact ⟨h1, h2, h3⟩

/-- Claim C1: for updateFromEncoderPositions — when dt < 1e-4 the call returns
false and leaves the velocity estimate and timestamp unchanged; in every
call the encoder memory advances to the current wheel distances and the
pose advances by the position-delta increments; when dt ≥ 1e-4 the call
returns true, stores the call time, inserts linear/dt and angular/dt into
the rolling filters and reports their means; and the per-call position
deltas telescope across consecutive calls, so no displacement is lost
across a short-interval call. -/
theorem C1_updateFromEncoderPositions_spec (o : Odometry)
    (lp rp t lp₂ rp₂ : ℝ) :
    (t - o.timestamp < 1e-4 →
      (o.updateWithVelEst lp rp t).1 = false ∧
      (o.updateWithVelEst lp rp t).2.linear_vel = o.linear_vel ∧
      (o.updateWithVelEst lp rp t).2.angular_vel = o.angular_vel ∧
      (o.updateWithVelEst lp rp t).2.timestamp = o.timestamp) ∧
    ((o.updateWithVelEst lp rp t).2.left_wheel_old_pos = lp * o.left_wheel_radius ∧
     (o.updateWithVelEst lp rp t).2.right_wheel_old_pos = rp * o.right_wheel_radius ∧
     (o.updateWithVelEst lp rp t).2.x =
       (o.integrateExact (linearDiff (o.leftDistTraveled lp) (o.rightDistTraveled rp))
         (angularDiff (o.leftDistTraveled lp) (o.rightDistTraveled rp)
           o.wheel_separation)).x ∧
     (o.updateWithVelEst lp rp t).2.y =
       (o.integrateExact (linearDiff (o.leftDistTraveled lp) (o.rightDistTraveled rp))
         (angularDiff (o.leftDistTraveled lp) (o.rightDistTraveled rp)
           o.wheel_separation)).y ∧
     (o.updateWithVelEst lp rp t).2.heading =
       (o.integrateExact (linearDiff (o.leftDistTraveled lp) (o.rightDistTraveled rp))
         (angularDiff (o.leftDistTraveled lp) (o.rightDistTraveled rp)
           o.wheel_separation)).heading) ∧
    (¬ t - o.timestamp < 1e-4 →
      (o.updateWithVelEst lp rp t).1 = true ∧
      (o.updateWithVelEst lp rp t).2.timestamp = t ∧
      (o.updateWithVelEst lp rp t).2.linear_accum =
        o.linear_accum.insert
          (linearDiff (o.leftDistTraveled lp) (o.rightDistTraveled rp) /
            (t - o.timestamp)) ∧
      (o.updateWithVelEst lp rp t).2.angular_accum =
        o.angular_accum.insert
          (angularDiff (o.leftDistTraveled lp) (o.rightDistTraveled rp)
            o.wheel_separation / (t - o.timestamp)) ∧
      (o.updateWithVelEst lp rp t).2.linear_vel =
        (o.updateWithVelEst lp rp t).2.linear_accum.mean ∧
      (o.updateWithVelEst lp rp t).2.angular_vel =
        (o.updateWithVelEst lp rp t).2.angular_accum.mean) ∧
    (linearDiff (o.leftDistTraveled lp) (o.rightDistTraveled rp) +
       linearDiff ((o.updateWithVelEst lp rp t).2.leftDistTraveled lp₂)
         ((o.updateWithVelEst lp rp t).2.rightDistTraveled rp₂) =
       linearDiff (o.leftDistTraveled lp₂) (o.rightDistTraveled rp₂) ∧
     angularDiff (o.leftDistTraveled lp) (o.rightDistTraveled rp)
         o.wheel_separation +
       angularDiff ((o.updateWithVelEst lp rp t).2.leftDistTraveled lp₂)
         ((o.updateWithVelEst lp rp t).2.rightDistTraveled rp₂)
         ((o.updateWithVelEst lp rp t).2.wheel_separation) =
       angularDiff (o.leftDistTraveled lp₂) (o.rightDistTraveled rp₂)
         o.wheel_separation) := by
  refine ⟨?_, ?_, ?_, ?_⟩
  · intro h
    simp only [Odometry.updateWithVelEst]
    rw [if_pos h]
    simp
  · obtain ⟨px, py, ph⟩ := updateWithVelEst_pose o lp rp t
    exact ⟨updateWithVelEst_left_old o lp rp t, updateWithVelEst_right_old o lp rp t,
      px, py, ph⟩
  · intro h
    simp only [Odometry.updateWithVelEst, Odometry.leftDistTraveled,
      Odometry.rightDistTraveled]
    rw [if_neg h]
    simp
  · have hlo := updateWithVelEst_left_old o lp rp t
    have hro := updateWithVelEst_right_old o lp rp t
    have hlr := updateWithVelEst_left_radius o lp rp t
    have hrr := updateWithVelEst_right_radius o lp rp t
    have hsep := updateWithVelEst_separation o lp rp t
    simp only [Odometry.leftDistTraveled, Odometry.rightDistTraveled,
      linearDiff, angularDiff, hlo, hro, hlr, hrr, hsep]
    constructor <;> ring

/-- Claim C1 witness: from a fresh estimator with unit wheel parameters, a call
with dt = 0 returns false and a call with dt = 1 returns true. -/
theorem C1_updateFromEncoderPositions_witness :
    ((((Odometry.construct 2).setWheelParams 1 1 1).updateWithVelEst 1 1 0).1 =
      false) ∧
    ((((Odometry.construct 2).setWheelParams 1 1 1).updateWithVelEst 1 1 1).1 =
      true) := by
  have hshort : (0 : ℝ) -
      ((Odometry.construct 2).setWheelParams 1 1 1).timestamp < 1e-4 := by
    norm_num [Odometry.construct, Odometry.setWheelParams]
  have hlong : ¬ ((1 : ℝ) -
      ((Odometry.construct 2).setWheelParams 1 1 1).timestamp < 1e-4) := by
    norm_num [Odometry.construct, Odometry.setWheelParams]
  exact ⟨((C1_updateFromEncoderPositions_spec
      ((Odometry.construct 2).setWheelParams 1 1 1) 1 1 0 0 0).1 hshort).1,
    ((C1_updateFromEncoderPositions_spec
      ((Odometry.construct 2).setWheelParams 1 1 1) 1 1 1 0 0).2.2.1 hlong).1⟩

end DiffDrive

end
